import Mathlib

/-!
Verification of the Spotify songs search/filter engine (src/app.py).

The program loads a CSV into a dataframe and, on the "Search Songs"
trigger, narrows it through four sequential stages: an artist-name text
match, a track-name text match, an inclusive year range, and a genre
membership test.  We embed the dataframe as a `List Song` and each stage
as the corresponding list transformation.

Text matching embeds pandas `Series.str.contains(pat, case=False,
na=False)`, whose default is `regex=True`: the pattern is compiled with
`re.IGNORECASE` and searched anywhere in the string; a null entry yields
`False`; an invalid pattern raises `re.error`.  We model the fragment of
Python regular expressions consisting of literal characters (lone `]`,
`{`, `}` and escaped punctuation are literals, as in CPython), the `.`
wildcard (which does not match a newline without `re.DOTALL`), and the
quantifiers `*`, `+`, `?` and bounded repeats `{m}`, `{m,}`, `{,n}`,
`{m,n}`, `{,}` applied to a single atom, each optionally lazy (`*?` —
same match existence as greedy) or possessive (`*+` — non-backtracking,
Python 3.11+).  Compilation fails exactly where CPython raises
`re.error` inside this fragment (a quantifier with nothing to repeat,
stacked quantifiers, `{m,n}` with `m > n`, a trailing backslash, and
the always-invalid lone `(`, `)`, `[`), and the stage surfaces the
failure as an error, matching the raised `re.error`.  Constructs
outside the fragment — groups, character classes, anchors, alternation,
alphanumeric escapes, non-ASCII case folding — are not modelled:
`compileRE` maps them to the same failed compilation, and every theorem
about successful matching is conditioned on a compiled pattern.
-/

namespace Spotify

/-- One row of the dataset (columns of updated_spotify_data.csv).
`artist_name` and `track_name` are `Option String` because a CSV cell can
be missing (pandas NaN), which `na=False` maps to a non-match. -/
structure Song where
  id : Int
  artist_name : Option String
  track_name : Option String
  track_id : String
  year : Int
  genre : String
deriving DecidableEq, Repr

/-- The filter criteria read from the widgets when "Search Songs" is
pressed: two text queries, the year slider's two ends, and the selected
genres of the multiselect. -/
structure FilterCriteria where
  artist_query : String
  track_query : String
  year_min : Int
  year_max : Int
  genres : List String
deriving DecidableEq, Repr

/-- An atom of the modelled regular-expression fragment: a literal
character or the `.` wildcard. -/
inductive RAtom where
  | lit (c : Char)
  | any
deriving DecidableEq, Repr

/-- A compiled pattern piece: one atom under a quantifier.  `once` is an
unquantified atom; `opt`/`star` are the backtracking `?`/`*`; `optP` and
`starP` are their possessive (non-backtracking) variants.  `+` and
bounded repeats are expanded into these at compile time. -/
inductive RPiece where
  | once (a : RAtom)
  | opt (a : RAtom)
  | star (a : RAtom)
  | optP (a : RAtom)
  | starP (a : RAtom)
deriving DecidableEq, Repr

/-- One atom against one character, under `re.IGNORECASE` (ASCII case
folding): the `.` wildcard matches every character except a newline
(`re.DOTALL` is not set), a literal matches up to case. -/
def matchAtom : RAtom → Char → Bool
  | RAtom.any, c => c != '\n'
  | RAtom.lit a, c => a.toLower == c.toLower

/-- Does the piece list match some prefix of the character list?  The
disjunctions enumerate exactly the split choices a backtracking matcher
explores; the possessive pieces commit to the maximal munch.  The fuel
only forces structural termination: every call decreases it, and each
call also shrinks `pieces.length + chars.length`, so the fuel chosen by
`matchHere` is never exhausted. -/
def matchPieces : Nat → List RPiece → List Char → Bool
  | 0, _, _ => false
  | _ + 1, [], _ => true
  | fuel + 1, RPiece.once a :: ps, s =>
    match s with
    | [] => false
    | c :: cs => matchAtom a c && matchPieces fuel ps cs
  | fuel + 1, RPiece.opt a :: ps, s =>
    matchPieces fuel ps s ||
      (match s with
       | [] => false
       | c :: cs => matchAtom a c && matchPieces fuel ps cs)
  | fuel + 1, RPiece.star a :: ps, s =>
    matchPieces fuel ps s ||
      (match s with
       | [] => false
       | c :: cs => matchAtom a c && matchPieces fuel (RPiece.star a :: ps) cs)
  | fuel + 1, RPiece.optP a :: ps, s =>
    (match s with
     | [] => matchPieces fuel ps []
     | c :: cs =>
       if matchAtom a c then matchPieces fuel ps cs
       else matchPieces fuel ps (c :: cs))
  | fuel + 1, RPiece.starP a :: ps, s =>
    matchPieces fuel ps (s.dropWhile (fun c => matchAtom a c))

/-- Does the compiled pattern match a prefix of the character list? -/
def matchHere (r : List RPiece) (s : List Char) : Bool :=
  matchPieces (r.length + s.length + 1) r s

/-- `re.search` over the fragment: does the pattern match starting at
some position of the string? -/
def reSearch (r : List RPiece) : List Char → Bool
  | [] => matchHere r []
  | c :: cs => matchHere r (c :: cs) || reSearch r cs

/-- `str.contains` applied to one cell with `na=False`: a missing cell
never matches; a present cell is searched. -/
def optSearch (r : List RPiece) : Option String → Bool
  | none => false
  | some s => reSearch r s.data

/-- Split the leading run of decimal digits off a character list. -/
def takeDigits : List Char → List Char × List Char
  | [] => ([], [])
  | c :: cs =>
    if c.isDigit then
      let p := takeDigits cs
      (c :: p.1, p.2)
    else ([], c :: cs)

/-- Decimal value of a digit run. -/
def digitsToNat (ds : List Char) : Nat :=
  ds.foldl (fun n c => n * 10 + (c.toNat - 48)) 0

/-- Parse the body of a bounded repeat after an opening brace, CPython
style: `m}`, `m,}`, `,n}`, `m,n}` and `,}` are repeat intervals (an
absent lower bound is 0, an absent upper bound is unbounded); anything
else — including the body of `{}` — makes the brace a literal.  Returns
the bounds and the rest of the pattern after the closing brace. -/
def parseInterval (t : List Char) : Option (Nat × Option Nat × List Char) :=
  let p := takeDigits t
  match p.2 with
  | '}' :: rest =>
    if p.1.isEmpty then none
    else some (digitsToNat p.1, some (digitsToNat p.1), rest)
  | ',' :: t2 =>
    let q := takeDigits t2
    match q.2 with
    | '}' :: rest =>
      some (digitsToNat p.1,
        if q.1.isEmpty then none else some (digitsToNat q.1), rest)
    | _ => none
  | _ => none

/-- Expand a bounded repeat of one atom into pieces: `lo` mandatory
copies, then an unbounded tail or `hi - lo` optional copies, possessive
when marked.  A bound with `hi < lo` is rejected, as Python raises
"min repeat greater than max repeat". -/
def intervalPieces (a : RAtom) (lo : Nat) (hi : Option Nat) (poss : Bool) :
    Option (List RPiece) :=
  match hi with
  | none =>
    some (List.replicate lo (RPiece.once a) ++
      [if poss then RPiece.starP a else RPiece.star a])
  | some h =>
    if h < lo then none
    else
      some (List.replicate lo (RPiece.once a) ++
        List.replicate (h - lo) (if poss then RPiece.optP a else RPiece.opt a))

/-- After an atom, read an optional quantifier — `*`, `+`, `?` or a
bounded repeat — with an optional lazy marker `?` (lazy and greedy
match the same strings, only differently) or possessive marker `+`, and
return the pieces for the quantified atom together with the remaining
pattern.  An unquantified brace whose body is not a repeat interval is
left for the caller to read as a literal.  `none` is a bound Python
rejects. -/
def quantify (a : RAtom) : List Char → Option (List RPiece × List Char)
  | '*' :: t =>
    match t with
    | '?' :: t2 => some ([RPiece.star a], t2)
    | '+' :: t2 => some ([RPiece.starP a], t2)
    | t2 => some ([RPiece.star a], t2)
  | '+' :: t =>
    match t with
    | '?' :: t2 => some ([RPiece.once a, RPiece.star a], t2)
    | '+' :: t2 => some ([RPiece.once a, RPiece.starP a], t2)
    | t2 => some ([RPiece.once a, RPiece.star a], t2)
  | '?' :: t =>
    match t with
    | '?' :: t2 => some ([RPiece.opt a], t2)
    | '+' :: t2 => some ([RPiece.optP a], t2)
    | t2 => some ([RPiece.opt a], t2)
  | '{' :: t =>
    match parseInterval t with
    | none => some ([RPiece.once a], '{' :: t)
    | some (lo, hi, t2) =>
      match t2 with
      | '?' :: t3 => (intervalPieces a lo hi false).map (fun ps => (ps, t3))
      | '+' :: t3 => (intervalPieces a lo hi true).map (fun ps => (ps, t3))
      | t3 => (intervalPieces a lo hi false).map (fun ps => (ps, t3))
  | t => some ([RPiece.once a], t)

/-- Characters that cannot stand as a literal atom: `(`, `)` and `[`
are always `re.error` when unmatched (and groups and classes are
outside the fragment), `|`, `^`, `$` are unsupported constructs, and a
bare quantifier has nothing to repeat. -/
def hardChars : List Char := ['(', ')', '[', '|', '^', '$', '*', '+', '?']

/-- Compile one atom per step.  The fuel only forces structural
termination: every step consumes at least the atom character, so
`compileRE`'s fuel is never exhausted.  `none` covers exactly the
patterns Python rejects within the fragment, plus the unsupported
constructs listed in `hardChars` and alphanumeric escapes. -/
def compileFuel : Nat → List Char → Option (List RPiece)
  | 0, _ => none
  | _ + 1, [] => some []
  | fuel + 1, c :: cs =>
    if c = '\\' then
      match cs with
      | [] => none
      | e :: rest =>
        if e.isAlpha || e.isDigit then none
        else
          match quantify (RAtom.lit e) rest with
          | none => none
          | some (ps, rest2) => (compileFuel fuel rest2).map (fun r => ps ++ r)
    else if c = '.' then
      match quantify RAtom.any cs with
      | none => none
      | some (ps, rest2) => (compileFuel fuel rest2).map (fun r => ps ++ r)
    else if c = '{' then
      match parseInterval cs with
      | some _ => none
      | none =>
        match quantify (RAtom.lit '{') cs with
        | none => none
        | some (ps, rest2) => (compileFuel fuel rest2).map (fun r => ps ++ r)
    else if c ∈ hardChars then none
    else
      match quantify (RAtom.lit c) cs with
      | none => none
      | some (ps, rest2) => (compileFuel fuel rest2).map (fun r => ps ++ r)

/-- Compile a pattern (as a character list) into the modelled fragment
of Python regular expressions. -/
def compileRE (s : List Char) : Option (List RPiece) :=
  compileFuel (s.length + 1) s

/-- Lines 82-85: `if artist_name: filtered_songs =
filtered_songs[filtered_songs["artist_name"].str.contains(artist_name,
case=False, na=False)]`.  An empty query skips the stage; a non-empty
query is compiled (an invalid pattern raises, modelled as `.error ()`)
and the rows whose artist name it matches are kept. -/
def artistStage (C : FilterCriteria) (D : List Song) : Except Unit (List Song) :=
  if C.artist_query = "" then Except.ok D
  else
    match compileRE C.artist_query.data with
    | none => Except.error ()
    | some r => Except.ok (D.filter (fun s => optSearch r s.artist_name))

/-- Lines 88-91: the same contract against `track_name`. -/
def trackStage (C : FilterCriteria) (D : List Song) : Except Unit (List Song) :=
  if C.track_query = "" then Except.ok D
  else
    match compileRE C.track_query.data with
    | none => Except.error ()
    | some r => Except.ok (D.filter (fun s => optSearch r s.track_name))

/-- Lines 94-97: keep rows with `year_range[0] <= year <= year_range[1]`;
applied unconditionally. -/
def yearStage (C : FilterCriteria) (D : List Song) : List Song :=
  D.filter (fun s => decide (C.year_min ≤ s.year ∧ s.year ≤ C.year_max))

/-- Lines 100-101: `if selected_genres: filtered_songs =
filtered_songs[filtered_songs["genre"].isin(selected_genres)]` — an
empty selection is falsy, so the stage is skipped entirely. -/
def genreStage (C : FilterCriteria) (D : List Song) : List Song :=
  if C.genres = [] then D
  else D.filter (fun s => C.genres.contains s.genre)

/-- Lines 79-101: the filter pipeline run by the "Search Songs" handler,
starting from a copy of the loaded dataframe.  A stage whose pattern
fails to compile aborts the run with the raised error. -/
def apply (D : List Song) (C : FilterCriteria) : Except Unit (List Song) :=
  (artistStage C D).bind (fun d1 =>
    (trackStage C d1).bind (fun d2 =>
      Except.ok (genreStage C (yearStage C d2))))

/-- Lowercase a string to a character list, for case-insensitive
comparison. -/
def lowerChars (s : String) : List Char := s.data.map Char.toLower

/-- Does the first character list occur as a leading block of the
second? -/
def startsWithCL : List Char → List Char → Bool
  | [], _ => true
  | _ :: _, [] => false
  | a :: as, b :: bs => a == b && startsWithCL as bs

/-- Does the first character list occur as a contiguous block anywhere
inside the second? -/
def containsCL (p : List Char) : List Char → Bool
  | [] => startsWithCL p []
  | c :: cs => startsWithCL p (c :: cs) || containsCL p cs

/-- Spec-side definition, formalising the specification's wording
"contains the query as a case-insensitive substring": the query occurs
literally, up to case, as a contiguous block of the string.  Used to
compare the specified text-match contract with the one the code
implements. -/
def ciSubstring (q s : String) : Bool := containsCL (lowerChars q) (lowerChars s)

/-- Line 58: `int(songs_df['year'].min())` — the least year occurring in
the dataset (0 on an empty dataset, where the app has already
returned). -/
def minYear : List Song → Int
  | [] => 0
  | s :: rest => rest.foldl (fun m t => min m t.year) s.year

/-- Line 59: `int(songs_df['year'].max())` — the greatest year occurring
in the dataset. -/
def maxYear : List Song → Int
  | [] => 0
  | s :: rest => rest.foldl (fun m t => max m t.year) s.year

/-- The widget defaults of lines 53-74: empty text inputs, the year
slider spanning the dataset's actual min/max, and the genre multiselect
defaulting to every genre occurring in the dataset (line 68 takes the
unique genres; sortedness is irrelevant to membership). -/
def defaultCriteria (D : List Song) : FilterCriteria :=
  { artist_query := ""
    track_query := ""
    year_min := minYear D
    year_max := maxYear D
    genres := (D.map Song.genre).dedup }

/-- The pipeline of lines 79-97 without the genre stage, used to state
what an empty genre selection leaves behind. -/
def applyWithoutGenre (D : List Song) (C : FilterCriteria) : Except Unit (List Song) :=
  (artistStage C D).bind (fun d1 =>
    (trackStage C d1).bind (fun d2 =>
      Except.ok (yearStage C d2)))

/-- The "Search Songs" handler viewed with the session dataframe made
explicit: line 79 copies `songs_df` into `filtered_songs`, every later
line 82-101 rebinds only `filtered_songs`, and `songs_df` is returned
unchanged alongside the result. -/
def searchHandler (songs_df : List Song) (C : FilterCriteria) :
    Except Unit (List Song × List Song) :=
  let filtered_songs := songs_df
  (apply filtered_songs C).map (fun result => (songs_df, result))

/-- A user-visible widget emission: `st.error`, `st.warning`, or an
`st.metric` statistics panel. -/
inductive UIEvent where
  | errorMsg (msg : String)
  | warningMsg (msg : String)
  | metric (label : String)
deriving DecidableEq, Repr

/-- Lines 14-20: if the file exists, its rows are returned; otherwise an
`st.error` is emitted and an empty dataframe returned — no exception
escapes. -/
def load_songs (fileExists : Bool) (fileRows : List Song) :
    List Song × List UIEvent :=
  if fileExists then (fileRows, [])
  else ([], [UIEvent.errorMsg "File not found"])

/-- Lines 28-43 of `main`: load the data, and on an empty dataframe warn
and return before any statistics; otherwise emit the four metric
panels. -/
def mainStatsPhase (fileExists : Bool) (fileRows : List Song) :
    List Song × List UIEvent :=
  let loaded := load_songs fileExists fileRows
  if loaded.1.isEmpty then
    (loaded.1, loaded.2 ++ [UIEvent.warningMsg "No songs data available"])
  else
    (loaded.1, loaded.2 ++
      [UIEvent.metric "Total Songs", UIEvent.metric "Unique Artists",
       UIEvent.metric "Years Range", UIEvent.metric "Genres"])

/-- Is this event a statistics panel? -/
def isMetric : UIEvent → Bool
  | UIEvent.metric _ => true
  | _ => false

/-- Names for the four filter stages of lines 82-101. -/
inductive StageTag where
  | artist
  | track
  | year
  | genre
deriving DecidableEq, Repr

/-- Run one named stage. -/
def runStage : StageTag → FilterCriteria → List Song → Except Unit (List Song)
  | StageTag.artist, C, D => artistStage C D
  | StageTag.track, C, D => trackStage C D
  | StageTag.year, C, D => Except.ok (yearStage C D)
  | StageTag.genre, C, D => Except.ok (genreStage C D)

/-- Run a list of stages left to right, each on the previous output. -/
def composeStages : List StageTag → FilterCriteria → List Song → Except Unit (List Song)
  | [], _, D => Except.ok D
  | t :: ts, C, D => (runStage t C D).bind (composeStages ts C)

/-- The stage order the source applies. -/
def allStages : List StageTag :=
  [StageTag.artist, StageTag.track, StageTag.year, StageTag.genre]

/-- The total per-row predicate of one text stage: an empty query keeps
everything, a compiled query keeps the rows it matches. -/
def qPred (q : String) (x : Option String) : Bool :=
  decide (q = "") ||
    (match compileRE q.data with
     | some r => optSearch r x
     | none => false)

/-- Does this stage run without raising? Only the text stages can fail,
and only on a non-empty query whose pattern does not compile. -/
def stageValid : StageTag → FilterCriteria → Bool
  | StageTag.artist, C => decide (C.artist_query = "") || (compileRE C.artist_query.data).isSome
  | StageTag.track, C => decide (C.track_query = "") || (compileRE C.track_query.data).isSome
  | StageTag.year, _ => true
  | StageTag.genre, _ => true

/-- The per-row predicate each stage filters by when it runs. -/
def stagePred : StageTag → FilterCriteria → Song → Bool
  | StageTag.artist, C => fun s => qPred C.artist_query s.artist_name
  | StageTag.track, C => fun s => qPred C.track_query s.track_name
  | StageTag.year, C => fun s => decide (C.year_min ≤ s.year ∧ s.year ≤ C.year_max)
  | StageTag.genre, C => fun s => decide (C.genres = []) || C.genres.contains s.genre

/-- A dataset row used in concrete scenarios. -/
def songAbc : Song := ⟨1, some "Abc", some "X", "t1", 2000, "Pop"⟩

/-- A row whose artist name "axc" matches the pattern "a.c" without
containing it literally. -/
def songAxc : Song := ⟨3, some "axc", some "Z", "t3", 2005, "Pop"⟩

/-- A row with a missing artist cell. -/
def songNoArtist : Song := ⟨4, none, some "W", "t4", 2001, "Pop"⟩

/-- Criteria with an empty genre selection and no other constraint that
`songAbc` would fail. -/
def critEmptyGenres : FilterCriteria := ⟨"", "", 1990, 2020, []⟩

/-- Criteria whose artist query "a.c" contains the `.` metacharacter. -/
def critDotAC : FilterCriteria := ⟨"a.c", "", 1990, 2020, ["Pop"]⟩

/-- Criteria whose artist query "(" is an invalid regular expression
(Python: unterminated subpattern). -/
def critParen : FilterCriteria := ⟨"(", "", 1990, 2020, ["Pop"]⟩

theorem artistStage_of_empty (C : FilterCriteria) (D : List Song)
    (h : C.artist_query = "") : artistStage C D = Except.ok D := by
  unfold artistStage
  rw [if_pos h]

theorem trackStage_of_empty (C : FilterCriteria) (D : List Song)
    (h : C.track_query = "") : trackStage C D = Except.ok D := by
  unfold trackStage
  rw [if_pos h]

theorem artistStage_of_compile (C : FilterCriteria) (D : List Song) (r : List RPiece)
    (hq : C.artist_query ≠ "") (hc : compileRE C.artist_query.data = some r) :
    artistStage C D = Except.ok (D.filter (fun s => optSearch r s.artist_name)) := by
  unfold artistStage
  rw [if_neg hq, hc]

theorem trackStage_of_compile (C : FilterCriteria) (D : List Song) (r : List RPiece)
    (hq : C.track_query ≠ "") (hc : compileRE C.track_query.data = some r) :
    trackStage C D = Except.ok (D.filter (fun s => optSearch r s.track_name)) := by
  unfold trackStage
  rw [if_neg hq, hc]

theorem artistStage_ok_elim (C : FilterCriteria) (D R : List Song)
    (h : artistStage C D = Except.ok R) :
    (C.artist_query = "" ∧ R = D) ∨
      (C.artist_query ≠ "" ∧ ∃ r, compileRE C.artist_query.data = some r ∧
        R = D.filter (fun s => optSearch r s.artist_name)) := by
  by_cases hq : C.artist_query = ""
  · rw [artistStage_of_empty C D hq] at h
    cases h
    exact Or.inl ⟨hq, rfl⟩
  · refine Or.inr ⟨hq, ?_⟩
    unfold artistStage at h
    rw [if_neg hq] at h
    cases hc : compileRE C.artist_query.data with
    | none => rw [hc] at h; cases h
    | some r =>
      rw [hc] at h
      cases h
      exact ⟨r, rfl, rfl⟩

theorem trackStage_ok_elim (C : FilterCriteria) (D R : List Song)
    (h : trackStage C D = Except.ok R) :
    (C.track_query = "" ∧ R = D) ∨
      (C.track_query ≠ "" ∧ ∃ r, compileRE C.track_query.data = some r ∧
        R = D.filter (fun s => optSearch r s.track_name)) := by
  by_cases hq : C.track_query = ""
  · rw [trackStage_of_empty C D hq] at h
    cases h
    exact Or.inl ⟨hq, rfl⟩
  · refine Or.inr ⟨hq, ?_⟩
    unfold trackStage at h
    rw [if_neg hq] at h
    cases hc : compileRE C.track_query.data with
    | none => rw [hc] at h; cases h
    | some r =>
      rw [hc] at h
      cases h
      exact ⟨r, rfl, rfl⟩

theorem artistStage_sublist (C : FilterCriteria) (D R : List Song)
    (h : artistStage C D = Except.ok R) : R.Sublist D := by
  rcases artistStage_ok_elim C D R h with ⟨_, rfl⟩ | ⟨_, r, _, rfl⟩
  · exact List.Sublist.refl _
  · exact List.filter_sublist D

theorem trackStage_sublist (C : FilterCriteria) (D R : List Song)
    (h : trackStage C D = Except.ok R) : R.Sublist D := by
  rcases trackStage_ok_elim C D R h with ⟨_, rfl⟩ | ⟨_, r, _, rfl⟩
  · exact List.Sublist.refl _
  · exact List.filter_sublist D

theorem yearStage_sublist (C : FilterCriteria) (D : List Song) :
    (yearStage C D).Sublist D :=
  List.filter_sublist D

theorem genreStage_sublist (C : FilterCriteria) (D : List Song) :
    (genreStage C D).Sublist D := by
  unfold genreStage
  split
  · exact List.Sublist.refl D
  · exact List.filter_sublist D

theorem mem_yearStage (C : FilterCriteria) (D : List Song) (s : Song) :
    s ∈ yearStage C D ↔ s ∈ D ∧ C.year_min ≤ s.year ∧ s.year ≤ C.year_max := by
  unfold yearStage
  rw [List.mem_filter]
  simp

theorem apply_ok_elim (D : List Song) (C : FilterCriteria) (R : List Song)
    (h : apply D C = Except.ok R) :
    ∃ d1 d2, artistStage C D = Except.ok d1 ∧ trackStage C d1 = Except.ok d2 ∧
      R = genreStage C (yearStage C d2) := by
  unfold apply at h
  cases ha : artistStage C D with
  | error e => rw [ha] at h; cases h
  | ok d1 =>
    rw [ha] at h
    have h2 : (trackStage C d1).bind
        (fun d2 => Except.ok (genreStage C (yearStage C d2))) = Except.ok R := h
    cases ht : trackStage C d1 with
    | error e => rw [ht] at h2; cases h2
    | ok d2 =>
      rw [ht] at h2
      cases h2
      exact ⟨d1, d2, rfl, ht, rfl⟩

theorem filter_eq_self_of_sublist_filter {α : Type} (p : α → Bool) (l R : List α)
    (h : R.Sublist (l.filter p)) : R.filter p = R := by
  apply List.filter_eq_self.mpr
  intro a ha
  exact (List.mem_filter.mp (h.subset ha)).2

theorem genreStage_eq_self (C : FilterCriteria) (X : List Song)
    (h : ∀ s ∈ X, s.genre ∈ C.genres) : genreStage C X = X := by
  unfold genreStage
  split
  · rfl
  · apply List.filter_eq_self.mpr
    intro s hs
    exact List.elem_iff.mpr (h s hs)

theorem foldl_min_le (l : List Song) (a : Int) :
    (∀ s ∈ l, List.foldl (fun m t => min m t.year) a l ≤ s.year) ∧
      List.foldl (fun m t => min m t.year) a l ≤ a := by
  induction l generalizing a with
  | nil => simp
  | cons x xs ih =>
    rw [List.foldl_cons]
    refine ⟨?_, ?_⟩
    · intro s hs
      rcases List.mem_cons.mp hs with rfl | hs
      · exact le_trans (ih (min a s.year)).2 (min_le_right _ _)
      · exact (ih (min a x.year)).1 s hs
    · exact le_trans (ih (min a x.year)).2 (min_le_left _ _)

theorem le_foldl_max (l : List Song) (a : Int) :
    (∀ s ∈ l, s.year ≤ List.foldl (fun m t => max m t.year) a l) ∧
      a ≤ List.foldl (fun m t => max m t.year) a l := by
  induction l generalizing a with
  | nil => simp
  | cons x xs ih =>
    rw [List.foldl_cons]
    refine ⟨?_, ?_⟩
    · intro s hs
      rcases List.mem_cons.mp hs with rfl | hs
      · exact le_trans (le_max_right _ _) (ih (max a s.year)).2
      · exact (ih (max a x.year)).1 s hs
    · exact le_trans (le_max_left _ _) (ih (max a x.year)).2

theorem minYear_le (D : List Song) (s : Song) (hs : s ∈ D) :
    minYear D ≤ s.year := by
  cases D with
  | nil => cases hs
  | cons x xs =>
    unfold minYear
    rcases List.mem_cons.mp hs with rfl | hs
    · exact (foldl_min_le xs s.year).2
    · exact (foldl_min_le xs x.year).1 s hs

theorem le_maxYear (D : List Song) (s : Song) (hs : s ∈ D) :
    s.year ≤ maxYear D := by
  cases D with
  | nil => cases hs
  | cons x xs =>
    unfold maxYear
    rcases List.mem_cons.mp hs with rfl | hs
    · exact (le_foldl_max xs s.year).2
    · exact (le_foldl_max xs x.year).1 s hs

/-- C3: with the default criteria — empty artist and track queries, the
year bounds set to the dataset's minimum and maximum year, and every
genre occurring in the dataset selected — the filter returns the whole
dataset unchanged. -/
theorem apply_defaultCriteria_eq_self (D : List Song) :
    apply D (defaultCriteria D) = Except.ok D := by
  unfold apply
  rw [artistStage_of_empty _ _ rfl]
  show (trackStage (defaultCriteria D) D).bind _ = _
  rw [trackStage_of_empty _ _ rfl]
  show Except.ok (genreStage (defaultCriteria D) (yearStage (defaultCriteria D) D)) =
    Except.ok D
  have hyear : yearStage (defaultCriteria D) D = D := by
    apply List.filter_eq_self.mpr
    intro s hs
    simp only [defaultCriteria, decide_eq_true_eq]
    exact ⟨minYear_le D s hs, le_maxYear D s hs⟩
  have hgenre : genreStage (defaultCriteria D) D = D :=
    genreStage_eq_self _ _
      (fun s hs => List.mem_dedup.mpr (List.mem_map_of_mem Song.genre hs))
  rw [hyear, hgenre]

/-- C2: every successful filter run returns a sublist of the input
dataset — each surviving row occurs verbatim in the input and surviving
rows keep their original relative order. -/
theorem apply_sublist (D : List Song) (C : FilterCriteria) (R : List Song)
    (h : apply D C = Except.ok R) : R.Sublist D := by
  obtain ⟨d1, d2, ha, ht, rfl⟩ := apply_ok_elim D C R h
  exact ((genreStage_sublist _ _).trans (yearStage_sublist _ _)).trans
    ((trackStage_sublist _ _ _ ht).trans (artistStage_sublist _ _ _ ha))

/-- Witness for C2 at a concrete dataset and criteria. -/
theorem apply_sublist_witness :
    ([songAbc] : List Song).Sublist [songAbc, songAxc] :=
  apply_sublist [songAbc, songAxc] ⟨"b", "", 1990, 2020, ["Pop", "Rock"]⟩
    [songAbc] (by rfl)

/-- C1 counterexample: with an empty genre selection the source skips
the genre stage (line 100, `if selected_genres:` is falsy on an empty
list), so a search with permissive remaining criteria returns the whole
dataset, not the empty sequence the claim requires. -/
theorem empty_genres_counterexample :
    critEmptyGenres.genres = [] ∧
      apply [songAbc] critEmptyGenres = Except.ok [songAbc] ∧
      ([songAbc] : List Song) ≠ [] :=
  ⟨rfl, rfl, by simp⟩

/-- C1 amended: an empty genre selection disables the genre stage, so
the result equals that of the artist, track and year stages alone — a
no-op, not a suppression of all results. -/
theorem empty_genres_skips_genre_stage (D : List Song) (C : FilterCriteria)
    (h : C.genres = []) : apply D C = applyWithoutGenre D C := by
  unfold apply applyWithoutGenre
  cases ha : artistStage C D with
  | error e => rfl
  | ok d1 =>
    show (trackStage C d1).bind _ = (trackStage C d1).bind _
    cases ht : trackStage C d1 with
    | error e => rfl
    | ok d2 =>
      show Except.ok (genreStage C (yearStage C d2)) =
        Except.ok (yearStage C d2)
      unfold genreStage
      rw [if_pos h]

/-- Witness for the amended C1 at a concrete dataset and criteria. -/
theorem empty_genres_skips_genre_stage_witness :
    apply [songAbc] critEmptyGenres = applyWithoutGenre [songAbc] critEmptyGenres :=
  empty_genres_skips_genre_stage [songAbc] critEmptyGenres rfl

/-- C5: the year stage keeps exactly the rows whose year lies within the
inclusive bounds, and it is applied unconditionally — every row of any
successful filter result satisfies the bounds. -/
theorem year_stage_inclusive_bounds (C : FilterCriteria) (D R : List Song)
    (h : apply D C = Except.ok R) :
    (∀ s : Song, s ∈ yearStage C D ↔
        s ∈ D ∧ C.year_min ≤ s.year ∧ s.year ≤ C.year_max) ∧
      ∀ s ∈ R, C.year_min ≤ s.year ∧ s.year ≤ C.year_max := by
  refine ⟨mem_yearStage C D, ?_⟩
  obtain ⟨d1, d2, ha, ht, rfl⟩ := apply_ok_elim D C R h
  intro s hs
  exact ((mem_yearStage C d2 s).mp ((genreStage_sublist _ _).subset hs)).2

/-- Witness for C5 at a concrete dataset and criteria. -/
theorem year_stage_inclusive_bounds_witness :
    (∀ s : Song, s ∈ yearStage critDotAC [songAxc] ↔
        s ∈ [songAxc] ∧ critDotAC.year_min ≤ s.year ∧ s.year ≤ critDotAC.year_max) ∧
      ∀ s ∈ [songAxc], critDotAC.year_min ≤ s.year ∧ s.year ≤ critDotAC.year_max :=
  year_stage_inclusive_bounds critDotAC [songAxc] [songAxc] (by rfl)

/-- C10: text matching is regular-expression based, not literal: the
pattern "a.c" keeps a row whose artist "axc" does not literally contain
the query, and the invalid pattern "(" makes the whole search fail
rather than match literally. -/
theorem query_interpreted_as_regex :
    (apply [songAxc] critDotAC = Except.ok [songAxc] ∧
      ciSubstring critDotAC.artist_query "axc" = false) ∧
      apply [songAxc] critParen = Except.error () :=
  ⟨⟨rfl, rfl⟩, rfl⟩

/-- C9: the search handler returns the session dataframe unchanged next
to the filter result: filtering produces a new derived sequence and
never mutates the source dataset. -/
theorem searchHandler_preserves_dataset (songs_df : List Song)
    (C : FilterCriteria) (out : List Song × List Song)
    (h : searchHandler songs_df C = Except.ok out) :
    out.1 = songs_df ∧ apply songs_df C = Except.ok out.2 := by
  unfold searchHandler at h
  have h2 : Except.map (fun result => (songs_df, result)) (apply songs_df C) =
      Except.ok out := h
  cases hap : apply songs_df C with
  | error e => rw [hap] at h2; cases h2
  | ok R => rw [hap] at h2; cases h2; exact ⟨rfl, rfl⟩

/-- Witness for C9 at a concrete dataset and criteria. -/
theorem searchHandler_preserves_dataset_witness :
    (([songAbc], [songAbc]) : List Song × List Song).1 = [songAbc] ∧
      apply [songAbc] critEmptyGenres =
        Except.ok (([songAbc], [songAbc]) : List Song × List Song).2 :=
  searchHandler_preserves_dataset [songAbc] critEmptyGenres ([songAbc], [songAbc])
    (by rfl)

/-- C8: when the input file is absent, loading yields the empty dataset
plus a visible error message instead of a fatal fault, `main` then emits
only the no-data warning and returns, and no statistics panel is ever
emitted. -/
theorem missing_file_no_stats (rows : List Song) :
    load_songs false rows = ([], [UIEvent.errorMsg "File not found"]) ∧
      mainStatsPhase false rows =
        ([], [UIEvent.errorMsg "File not found",
          UIEvent.warningMsg "No songs data available"]) ∧
      ∀ e ∈ (mainStatsPhase false rows).2, isMetric e = false := by
  refine ⟨rfl, rfl, ?_⟩
  intro e he
  have he2 : e ∈ [UIEvent.errorMsg "File not found",
      UIEvent.warningMsg "No songs data available"] := he
  rcases List.mem_cons.mp he2 with rfl | he3
  · rfl
  · rcases List.mem_cons.mp he3 with rfl | he4
    · rfl
    · cases he4

theorem yearStage_eq_self_of_sublist (C : FilterCriteria) (X Y : List Song)
    (h : X.Sublist (yearStage C Y)) : yearStage C X = X :=
  filter_eq_self_of_sublist_filter _ Y X h

theorem artistStage_self_of_ok (C : FilterCriteria) (D d1 X : List Song)
    (ha : artistStage C D = Except.ok d1) (hX : X.Sublist d1) :
    artistStage C X = Except.ok X := by
  rcases artistStage_ok_elim C D d1 ha with ⟨hq, rfl⟩ | ⟨hq, r, hc, rfl⟩
  · exact artistStage_of_empty C X hq
  · rw [artistStage_of_compile C X r hq hc,
      filter_eq_self_of_sublist_filter _ D X hX]

theorem trackStage_self_of_ok (C : FilterCriteria) (D d1 X : List Song)
    (ha : trackStage C D = Except.ok d1) (hX : X.Sublist d1) :
    trackStage C X = Except.ok X := by
  rcases trackStage_ok_elim C D d1 ha with ⟨hq, rfl⟩ | ⟨hq, r, hc, rfl⟩
  · exact trackStage_of_empty C X hq
  · rw [trackStage_of_compile C X r hq hc,
      filter_eq_self_of_sublist_filter _ D X hX]

theorem genreStage_self (C : FilterCriteria) (Y : List Song) :
    genreStage C (genreStage C Y) = genreStage C Y := by
  by_cases hg : C.genres = []
  · unfold genreStage
    rw [if_pos hg, if_pos hg]
  · unfold genreStage
    rw [if_neg hg, if_neg hg]
    exact filter_eq_self_of_sublist_filter _ Y _ (List.Sublist.refl _)

/-- C6: filtering is idempotent — reapplying the identical criteria to a
successful filter result returns it unchanged. -/
theorem apply_idempotent (D : List Song) (C : FilterCriteria) (R : List Song)
    (h : apply D C = Except.ok R) : apply R C = Except.ok R := by
  obtain ⟨d1, d2, ha, ht, rfl⟩ := apply_ok_elim D C R h
  set G := genreStage C (yearStage C d2) with hG
  have hGy : G.Sublist (yearStage C d2) := genreStage_sublist _ _
  have hGd2 : G.Sublist d2 := hGy.trans (yearStage_sublist _ _)
  have hGd1 : G.Sublist d1 := hGd2.trans (trackStage_sublist _ _ _ ht)
  have hart : artistStage C G = Except.ok G :=
    artistStage_self_of_ok C D d1 G ha hGd1
  have htr : trackStage C G = Except.ok G :=
    trackStage_self_of_ok C d1 d2 G ht hGd2
  have hyear : yearStage C G = G := yearStage_eq_self_of_sublist C G d2 hGy
  have hgen : genreStage C G = G := by
    rw [hG]
    exact genreStage_self C (yearStage C d2)
  unfold apply
  rw [hart]
  show (trackStage C G).bind _ = _
  rw [htr]
  show Except.ok (genreStage C (yearStage C G)) = Except.ok G
  rw [hyear, hgen]

/-- Witness for C6 at a concrete dataset and criteria. -/
theorem apply_idempotent_witness :
    apply [songAbc] ⟨"b", "", 1990, 2020, ["Pop", "Rock"]⟩ =
      Except.ok [songAbc] :=
  apply_idempotent [songAbc, songAxc] ⟨"b", "", 1990, 2020, ["Pop", "Rock"]⟩
    [songAbc] (by rfl)

theorem runStage_eq (t : StageTag) (C : FilterCriteria) (D : List Song) :
    runStage t C D =
      if stageValid t C = true then Except.ok (D.filter (stagePred t C))
      else Except.error () := by
  cases t with
  | year => simp [runStage, stageValid, stagePred, yearStage]
  | genre =>
    by_cases hg : C.genres = []
    · simp [runStage, stageValid, stagePred, genreStage, hg]
    · simp [runStage, stageValid, stagePred, genreStage, hg]
  | artist =>
    by_cases hq : C.artist_query = ""
    · simp [runStage, artistStage, stageValid, stagePred, qPred, hq]
    · cases hc : compileRE C.artist_query.data with
      | none => simp [runStage, artistStage, stageValid, stagePred, qPred, hq, hc]
      | some r => simp [runStage, artistStage, stageValid, stagePred, qPred, hq, hc]
  | track =>
    by_cases hq : C.track_query = ""
    · simp [runStage, trackStage, stageValid, stagePred, qPred, hq]
    · cases hc : compileRE C.track_query.data with
      | none => simp [runStage, trackStage, stageValid, stagePred, qPred, hq, hc]
      | some r => simp [runStage, trackStage, stageValid, stagePred, qPred, hq, hc]

theorem composeStages_eq (order : List StageTag) (C : FilterCriteria) (D : List Song) :
    composeStages order C D =
      if order.all (fun t => stageValid t C) = true then
        Except.ok (D.filter (fun s => order.all (fun t => stagePred t C s)))
      else Except.error () := by
  induction order generalizing D with
  | nil => simp [composeStages]
  | cons t ts ih =>
    rw [composeStages, runStage_eq]
    by_cases hv : stageValid t C = true
    · rw [if_pos hv]
      show composeStages ts C (D.filter (stagePred t C)) = _
      rw [ih]
      by_cases hts : ts.all (fun u => stageValid u C) = true
      · rw [if_pos hts, if_pos (by simp [List.all_cons, hv, hts])]
        rw [List.filter_filter]
        apply congrArg
        apply List.filter_congr
        intro s _
        rw [List.all_cons]
        exact Bool.and_comm _ _
      · rw [if_neg hts, if_neg (by rw [List.all_cons, hv]; simpa using hts)]
    · rw [if_neg hv]
      show Except.error () = _
      rw [if_neg (by rw [List.all_cons]; simp [hv])]

theorem all_perm {α : Type} (l1 l2 : List α) (hp : l1.Perm l2) (f : α → Bool) :
    l1.all f = l2.all f := by
  apply Bool.eq_iff_iff.mpr
  rw [List.all_eq_true, List.all_eq_true]
  exact ⟨fun H x hx => H x (hp.mem_iff.mpr hx),
    fun H x hx => H x (hp.mem_iff.mp hx)⟩

theorem composeStages_perm (ord1 ord2 : List StageTag) (hp : ord1.Perm ord2)
    (C : FilterCriteria) (D : List Song) :
    composeStages ord1 C D = composeStages ord2 C D := by
  rw [composeStages_eq, composeStages_eq,
    all_perm ord1 ord2 hp (fun t => stageValid t C)]
  by_cases h : ord2.all (fun t => stageValid t C) = true
  · rw [if_pos h, if_pos h]
    apply congrArg
    apply List.filter_congr
    intro s _
    exact all_perm ord1 ord2 hp (fun t => stagePred t C s)
  · rw [if_neg h, if_neg h]

theorem apply_eq_composeStages (D : List Song) (C : FilterCriteria) :
    apply D C = composeStages allStages C D := by
  unfold apply allStages
  show _ = (artistStage C D).bind _
  cases ha : artistStage C D with
  | error e => rfl
  | ok d1 =>
    show (trackStage C d1).bind _ =
      composeStages [StageTag.track, StageTag.year, StageTag.genre] C d1
    show (trackStage C d1).bind _ = (trackStage C d1).bind _
    cases ht : trackStage C d1 with
    | error e => rfl
    | ok d2 => rfl

/-- C7: the four filter stages commute — running them in any order
yields the same outcome as the source's artist, track, year, genre
order. -/
theorem stage_order_irrelevant (order : List StageTag) (C : FilterCriteria)
    (D : List Song) (hp : order.Perm allStages) :
    composeStages order C D = apply D C := by
  rw [composeStages_perm order allStages hp, apply_eq_composeStages]

/-- Witness for C7: the fully reversed stage order on a concrete dataset
and criteria. -/
theorem stage_order_irrelevant_witness :
    composeStages [StageTag.genre, StageTag.year, StageTag.track, StageTag.artist]
      critDotAC [songAxc, songAbc] = apply [songAxc, songAbc] critDotAC :=
  stage_order_irrelevant
    [StageTag.genre, StageTag.year, StageTag.track, StageTag.artist]
    critDotAC [songAxc, songAbc] (by decide)

end Spotify
